import Mathlib

/-
Shallow embedding of the InversifyNodeBE repository (TypeScript, Inversify +
inversify-express-utils + Express).

Sources embedded:
  - src/src/container/DIContainer.ts  (DIContainer, plus the startup IIFE of index.ts
    appended in the same file)
  - src/src/controllers/warrior.controller.ts  (WarriorController, InitController)
  - src/src/app.ts  (App.createApp wiring)
  - src/unnamed/part_000  (the repository README, which reproduces the Ninja entity,
    the interface definitions and the TYPES injection tokens verbatim)

Third-party framework behaviour used by the embedding is modelled from the
libraries' documented contracts:
  - InversifyJS: container.bind(id).to(Class) registers a binding whose default
    scope is transient, so container.get(id) constructs a fresh instance on every
    call; inSingletonScope() (not used anywhere in this repository) would cache
    the first instance instead.
  - Express / inversify-express-utils: a controller method returning a string
    results in res.send(string), i.e. status 200 with the string itself as the
    response body, unmodified.
-/

/-! ## Interfaces (src/interfaces, reproduced in the README)

Each interface method is input-free and returns a string, so a pure
implementation of an interface is fully described by the strings its methods
return; the structures below record exactly those. -/

/-- The Weapon interface: hit() -> string. -/
structure Weapon where
  hit : String
deriving DecidableEq

/-- The ThrowableWeapon interface: throw() -> string. -/
structure ThrowableWeapon where
  throw : String
deriving DecidableEq

/-- The Warrior interface: fight() -> string, sneak() -> string. -/
structure Warrior where
  fight : String
  sneak : String
deriving DecidableEq

/-! ## Entities -/

/-- The Ninja entity (README, Entity Implementations section): holds one Weapon
and one ThrowableWeapon collaborator, injected by the container. -/
structure Ninja where
  _katana : Weapon
  _shuriken : ThrowableWeapon
deriving DecidableEq

/-- Ninja.fight(): returns this._katana.hit(). -/
def Ninja.fight (n : Ninja) : String := n._katana.hit

/-- Ninja.sneak(): returns this._shuriken.throw(). -/
def Ninja.sneak (n : Ninja) : String := n._shuriken.throw

/-- A Ninja viewed through the Warrior interface it implements. -/
def Ninja.toWarrior (n : Ninja) : Warrior := ⟨n.fight, n.sneak⟩

/-- Modelled from the spec: the concrete weapon entity file (src/entities) is not
present under src/. Spec section 2 fixes Katana's single method to return the
literal "cut!". -/
def Katana : Weapon := ⟨"cut!"⟩

/-- Modelled from the spec: the concrete weapon entity file (src/entities) is not
present under src/. Spec section 2 fixes Shuriken's single method to return the
literal "hit!". -/
def Shuriken : ThrowableWeapon := ⟨"hit!"⟩

/-! ## Injection tokens and the container (src/src/container/DIContainer.ts)

TYPES (src/types.ts, reproduced in the README) declares four injection tokens;
TypeId enumerates them. Impl enumerates the concrete classes bound to them. -/

/-- The four injection tokens of TYPES (Symbol.for identifiers). -/
inductive TypeId
  | Warrior
  | Weapon
  | ThrowableWeapon
  | WarriorController
deriving DecidableEq

/-- The concrete classes the container can bind. -/
inductive Impl
  | Ninja
  | Katana
  | Shuriken
  | WarriorControllerImpl
deriving DecidableEq

/-- InversifyJS binding scopes relevant here: bind(..).to(..) defaults to
transient; inSingletonScope() would switch to singleton. -/
inductive BindingScope
  | transient
  | singleton
deriving DecidableEq

/-- One binding record of the container: token, bound class, scope. -/
structure Binding where
  serviceId : TypeId
  impl : Impl
  scope : BindingScope
deriving DecidableEq

/-- An object produced by container.get: its class together with an allocation
number distinguishing distinct object identities. -/
structure ResolvedInstance where
  impl : Impl
  objId : Nat
deriving DecidableEq

/-- The InversifyJS Container state: its binding list, the cache used by
singleton-scoped bindings, and a counter supplying fresh object identities. -/
structure Container where
  bindings : List Binding
  cache : List (TypeId × ResolvedInstance)
  nextObjId : Nat
deriving DecidableEq

/-- new Container(): no bindings, empty singleton cache. -/
def Container.empty : Container := ⟨[], [], 0⟩

/-- container.bind(t).to(i): appends a binding in the default (transient) scope,
exactly as every bind call in DIContainer.registerDependencies does. -/
def Container.bindTo (c : Container) (t : TypeId) (i : Impl) : Container :=
  { c with bindings := c.bindings ++ [⟨t, i, BindingScope.transient⟩] }

/-- container.get(t), following InversifyJS's documented resolution contract:
the matching binding is looked up; a transient binding constructs a fresh
instance on every call, a singleton binding caches the first instance.
(Recursive construction of a new instance's own dependencies only allocates
further fresh objects and is elided.) Returns none for an unbound token. -/
def Container.get (c : Container) (t : TypeId) : Option (ResolvedInstance × Container) :=
  match c.bindings.find? (fun b => b.serviceId == t) with
  | none => none
  | some b =>
    match b.scope with
    | BindingScope.transient =>
        some (⟨b.impl, c.nextObjId⟩, { c with nextObjId := c.nextObjId + 1 })
    | BindingScope.singleton =>
        match c.cache.lookup t with
        | some inst => some (inst, c)
        | none =>
            let inst : ResolvedInstance := ⟨b.impl, c.nextObjId⟩
            some (inst, { c with nextObjId := c.nextObjId + 1,
                                 cache := (t, inst) :: c.cache })

/-- DIContainer.registerDependencies(): the four bind calls of
src/src/container/DIContainer.ts, in source order. -/
def DIContainer.registerDependencies (c : Container) : Container :=
  (((c.bindTo TypeId.Warrior Impl.Ninja).bindTo
      TypeId.Weapon Impl.Katana).bindTo
      TypeId.ThrowableWeapon Impl.Shuriken).bindTo
      TypeId.WarriorController Impl.WarriorControllerImpl

/-- The container as it stands after the first resolveDependencies call. -/
def DIContainer.registeredContainer : Container :=
  DIContainer.registerDependencies Container.empty

/-- The static state of the DIContainer class: the private static container
field (none before first initialization), instrumented with a ghost counter of
how many times registerDependencies has run. -/
structure DIState where
  container : Option Container
  registerCalls : Nat
deriving DecidableEq

/-- Process start: static field unset, registerDependencies never called. -/
def DIContainer.initialState : DIState := ⟨none, 0⟩

/-- DIContainer.resolveDependencies(): if the static container is unset, create
a new Container, run registerDependencies on it and store it; then return the
stored container. Explicit state passing replaces the static field mutation. -/
def DIContainer.resolveDependencies : DIState → Container × DIState
  | ⟨none, k⟩ =>
      let c := DIContainer.registerDependencies Container.empty
      (c, ⟨some c, k + 1⟩)
  | ⟨some c, k⟩ => (c, ⟨some c, k⟩)

/-- n successive calls to DIContainer.resolveDependencies, tracking the static
state they thread through. -/
def iterateResolve : Nat → DIState → DIState
  | 0, s => s
  | Nat.succ n, s => iterateResolve n (DIContainer.resolveDependencies s).snd

/-- Two successive container.get calls for the same token against the registered
container, returning the two resolved instances. -/
def getTwice (t : TypeId) : Option (ResolvedInstance × ResolvedInstance) :=
  match DIContainer.registeredContainer.get t with
  | none => none
  | some (i1, c1) =>
    match c1.get t with
    | none => none
    | some (i2, _) => some (i1, i2)

/-! ## Controllers (src/src/controllers/warrior.controller.ts) -/

/-- WarriorController: constructor-injected with a Warrior. -/
structure WarriorController where
  warrior : Warrior
deriving DecidableEq

/-- WarriorController.fight() (route GET /warrior/fight):
returns this.warrior.fight(). -/
def WarriorController.fight (c : WarriorController) : String := c.warrior.fight

/-- WarriorController.sneak() (route GET /warrior/sneak):
returns this.warrior.sneak(). -/
def WarriorController.sneak (c : WarriorController) : String := c.warrior.sneak

/-- InitController: no dependencies. -/
structure InitController where
deriving DecidableEq

/-- InitController.fight() (route GET /): returns the greeting literal. -/
def InitController.fight (_ : InitController) : String :=
  "base route. Hello World Fellas"

/-! ## Wiring and HTTP layer (src/src/app.ts plus framework contract) -/

/-- The Ninja as the container wires it: TYPES.Weapon resolves to Katana and
TYPES.ThrowableWeapon to Shuriken for its injected fields. -/
def boundNinja : Ninja := ⟨Katana, Shuriken⟩

/-- The Warrior the container injects into WarriorController: TYPES.Warrior is
bound to Ninja. -/
def boundWarrior : Warrior := boundNinja.toWarrior

/-- The WarriorController instance as constructed by the container. -/
def warriorController : WarriorController := ⟨boundWarrior⟩

/-- An HTTP response: status code and body text. -/
structure HttpResponse where
  status : Nat
  body : String
deriving DecidableEq

/-- Express res.send applied to a controller method's string return value
(inversify-express-utils passes a string result straight to res.send):
status 200, body the string itself, unmodified. -/
def sendString (s : String) : HttpResponse := ⟨200, s⟩

/-- The application's GET route table as inversify-express-utils builds it from
the controller decorators: controller("/warrior") + httpGet("/fight") and
httpGet("/sneak"), and controller("/") + httpGet(""). Any other path falls
through to the framework default (modelled as none). -/
def handleGet : String → Option HttpResponse
  | "/warrior/fight" => some (sendString warriorController.fight)
  | "/warrior/sneak" => some (sendString warriorController.sneak)
  | "/" => some (sendString (InitController.fight InitController.mk))
  | _ => none

/-! ## Process entry point (index.ts content, appended in DIContainer.ts) -/

/-- The fixed port of index.ts. -/
def PORT : Nat := 3000

/-- Observable outcome of the startup IIFE: either the server is listening and
the startup message was logged, or the process exited with a code after logging
an error. -/
inductive ProcessOutcome
  | listening (port : Nat) (log : String)
  | exited (code : Nat) (log : String)
deriving DecidableEq

/-- The startup IIFE of index.ts: awaits App.createApp() and app.listen(PORT);
on success logs the running message, on any thrown error logs
"Error starting server:" with the error and calls process.exit(1). The argument
is the combined result of createApp and listen. -/
def startupIIFE : Except String Unit → ProcessOutcome
  | Except.ok _ =>
      ProcessOutcome.listening PORT
        ("Server is running on http://localhost:" ++ toString PORT)
  | Except.error e =>
      ProcessOutcome.exited 1 ("Error starting server: " ++ e)

/-! ## Theorems -/

/-- Helper for the resolveDependencies iteration: once the static container
field is set, further resolveDependencies calls leave the state unchanged. -/
theorem iterateResolve_fixed (n : Nat) (c : Container) (k : Nat) :
    iterateResolve n ⟨some c, k⟩ = ⟨some c, k⟩ := by
  induction n with
  | zero => rfl
  | succ m ih => exact ih

/-- Helper: after at least one call starting from process start, the static
state is exactly the registered container with one registerDependencies run. -/
theorem iterateResolve_init_succ (n : Nat) :
    iterateResolve (n + 1) DIContainer.initialState =
      ⟨some DIContainer.registeredContainer, 1⟩ :=
  iterateResolve_fixed n DIContainer.registeredContainer 1

/-- C1 counterexample: the GET /warrior/fight handler returns the Warrior's
string "cut!" and the framework sends it verbatim, so the response body is the
plain string "cut!", not the JSON object with an "action" key that the claim
states. -/
theorem warrior_fight_body_is_not_json_object :
    handleGet ("/warrior/fight") = some ⟨200, "cut!"⟩ ∧
    handleGet ("/warrior/fight") ≠ some ⟨200, "\x7b\"action\":\"cut!\"\x7d"⟩ := by
  exact ⟨rfl, by decide⟩

/-- C1 amended: every request to GET /warrior/fight yields status 200 with body
exactly the plain string "cut!". -/
theorem warrior_fight_returns_plain_cut :
    handleGet ("/warrior/fight") = some ⟨200, "cut!"⟩ := rfl

/-- C2 counterexample: the GET /warrior/sneak handler returns the Warrior's
string "hit!" and the framework sends it verbatim, so the response body is the
plain string "hit!", not the JSON object with an "action" key that the claim
states. -/
theorem warrior_sneak_body_is_not_json_object :
    handleGet ("/warrior/sneak") = some ⟨200, "hit!"⟩ ∧
    handleGet ("/warrior/sneak") ≠ some ⟨200, "\x7b\"action\":\"hit!\"\x7d"⟩ := by
  exact ⟨rfl, by decide⟩

/-- C2 amended: every request to GET /warrior/sneak yields status 200 with body
exactly the plain string "hit!". -/
theorem warrior_sneak_returns_plain_hit :
    handleGet ("/warrior/sneak") = some ⟨200, "hit!"⟩ := rfl

/-- C3 counterexample: resolving TYPES.Warrior twice from the registered
container yields two distinct instances (the bindings use the default transient
scope), refuting "every resolution returns the same instance". -/
theorem warrior_resolution_not_same_instance :
    getTwice TypeId.Warrior = some (⟨Impl.Ninja, 0⟩, ⟨Impl.Ninja, 1⟩) ∧
    (⟨Impl.Ninja, 0⟩ : ResolvedInstance) ≠ ⟨Impl.Ninja, 1⟩ := by
  exact ⟨rfl, by decide⟩

/-- C3 amended: exactly one concrete binding exists per capability, and
resolution is deterministic in behaviour (the same implementation class on
every call), but the bindings are transient-scoped, so each resolution
constructs a fresh instance rather than returning a process-lifetime
singleton. -/
theorem bindings_unique_and_resolution_transient :
    (∀ t : TypeId,
      DIContainer.registeredContainer.bindings.countP
        (fun b => b.serviceId == t) = 1) ∧
    (∀ t : TypeId, ∃ p q : ResolvedInstance,
      getTwice t = some (p, q) ∧ p.impl = q.impl ∧ p.objId ≠ q.objId) := by
  constructor
  · intro t
    cases t <;> rfl
  · intro t
    cases t
    · exact ⟨⟨Impl.Ninja, 0⟩, ⟨Impl.Ninja, 1⟩, rfl, rfl, by decide⟩
    · exact ⟨⟨Impl.Katana, 0⟩, ⟨Impl.Katana, 1⟩, rfl, rfl, by decide⟩
    · exact ⟨⟨Impl.Shuriken, 0⟩, ⟨Impl.Shuriken, 1⟩, rfl, rfl, by decide⟩
    · exact ⟨⟨Impl.WarriorControllerImpl, 0⟩, ⟨Impl.WarriorControllerImpl, 1⟩,
        rfl, rfl, by decide⟩

/-- C3 witness: the amended theorem instantiated at the Warrior capability. -/
theorem bindings_unique_and_resolution_transient_witness :
    DIContainer.registeredContainer.bindings.countP
      (fun b => b.serviceId == TypeId.Warrior) = 1 ∧
    (∃ p q : ResolvedInstance, getTwice TypeId.Warrior = some (p, q) ∧
      p.impl = q.impl ∧ p.objId ≠ q.objId) :=
  ⟨bindings_unique_and_resolution_transient.1 TypeId.Warrior,
   bindings_unique_and_resolution_transient.2 TypeId.Warrior⟩

/-- C4: resolveDependencies is idempotent: the first call constructs the
container and registers the bindings, and from any static state a second call
returns the same container as the first and leaves the state (including the
registerDependencies call count) unchanged. -/
theorem resolveDependencies_idempotent :
    DIContainer.resolveDependencies DIContainer.initialState =
      (DIContainer.registeredContainer,
        ⟨some DIContainer.registeredContainer, 1⟩) ∧
    (∀ s : DIState,
      (DIContainer.resolveDependencies
          ((DIContainer.resolveDependencies s).snd)).fst =
        (DIContainer.resolveDependencies s).fst ∧
      (DIContainer.resolveDependencies
          ((DIContainer.resolveDependencies s).snd)).snd =
        (DIContainer.resolveDependencies s).snd) := by
  refine ⟨rfl, ?_⟩
  intro s
  obtain ⟨copt, k⟩ := s
  cases copt <;> exact ⟨rfl, rfl⟩

/-- C4 witness: idempotence instantiated at the process-start state. -/
theorem resolveDependencies_idempotent_witness :
    (DIContainer.resolveDependencies
        ((DIContainer.resolveDependencies DIContainer.initialState).snd)).fst =
      (DIContainer.resolveDependencies DIContainer.initialState).fst ∧
    (DIContainer.resolveDependencies
        ((DIContainer.resolveDependencies DIContainer.initialState).snd)).snd =
      (DIContainer.resolveDependencies DIContainer.initialState).snd :=
  resolveDependencies_idempotent.2 DIContainer.initialState

/-- C5 counterexample: the first resolveDependencies call registers four
bindings, not three: the binding TYPES.WarriorController to WarriorController is
registered in addition to the three the claim lists. -/
theorem registerDependencies_binds_four_not_three :
    DIContainer.registeredContainer.bindings.length = 4 ∧
    (⟨TypeId.WarriorController, Impl.WarriorControllerImpl,
        BindingScope.transient⟩ : Binding) ∈
      DIContainer.registeredContainer.bindings := by
  exact ⟨rfl, by decide⟩

/-- C5 amended: the first call to resolveDependencies registers exactly four
bindings, in order Warrior to Ninja, Weapon to Katana, ThrowableWeapon to
Shuriken, and WarriorController to WarriorController, and no others. -/
theorem registerDependencies_bindings_exact :
    DIContainer.registeredContainer.bindings =
      [⟨TypeId.Warrior, Impl.Ninja, BindingScope.transient⟩,
       ⟨TypeId.Weapon, Impl.Katana, BindingScope.transient⟩,
       ⟨TypeId.ThrowableWeapon, Impl.Shuriken, BindingScope.transient⟩,
       ⟨TypeId.WarriorController, Impl.WarriorControllerImpl,
          BindingScope.transient⟩] := rfl

/-- C6: for every bound Weapon and ThrowableWeapon, Ninja.fight() returns
exactly the Weapon's hit() string and Ninja.sneak() returns exactly the
ThrowableWeapon's throw() string; both are total string-valued functions, so
there is no branching and no failure path. -/
theorem ninja_delegates_to_weapons :
    ∀ (k : Weapon) (s : ThrowableWeapon),
      (Ninja.mk k s).fight = k.hit ∧ (Ninja.mk k s).sneak = s.throw :=
  fun _ _ => ⟨rfl, rfl⟩

/-- C6 witness: delegation instantiated at the wired Katana and Shuriken. -/
theorem ninja_delegates_to_weapons_witness :
    (Ninja.mk Katana Shuriken).fight = Katana.hit ∧
    (Ninja.mk Katana Shuriken).sneak = Shuriken.throw :=
  ninja_delegates_to_weapons Katana Shuriken

/-- C7: startup failure is the only failure path: any error thrown while
creating the app or starting the listener is caught at the top level, logged
with "Error starting server:", and the process exits with code 1 (nonzero);
on success the server listens on the fixed port; and the request handlers are
total, always producing a 200 response, so they cannot fail. -/
theorem startup_failure_only_failure_path :
    (∀ e : String,
      startupIIFE (Except.error e) =
        ProcessOutcome.exited 1 ("Error starting server: " ++ e) ∧
      (1 : Nat) ≠ 0) ∧
    startupIIFE (Except.ok ()) =
      ProcessOutcome.listening PORT
        ("Server is running on http://localhost:" ++ toString PORT) ∧
    (∀ w : Warrior,
      (sendString (WarriorController.fight ⟨w⟩)).status = 200 ∧
      (sendString (WarriorController.sneak ⟨w⟩)).status = 200) ∧
    (sendString (InitController.fight InitController.mk)).status = 200 := by
  exact ⟨fun e => ⟨rfl, by decide⟩, rfl, fun w => ⟨rfl, rfl⟩, rfl⟩

/-- C7 witness: the startup failure path instantiated at a concrete bind
error, and the handler totality at the wired Warrior. -/
theorem startup_failure_only_failure_path_witness :
    (startupIIFE (Except.error ("EADDRINUSE")) =
      ProcessOutcome.exited 1 ("Error starting server: " ++ "EADDRINUSE") ∧
      (1 : Nat) ≠ 0) ∧
    (sendString (WarriorController.fight ⟨boundWarrior⟩)).status = 200 ∧
    (sendString (WarriorController.sneak ⟨boundWarrior⟩)).status = 200 :=
  ⟨startup_failure_only_failure_path.1 "EADDRINUSE",
   startup_failure_only_failure_path.2.2.1 boundWarrior⟩

/-- C8: GET / responds with status 200 and a non-empty greeting string. -/
theorem root_route_nonempty_greeting :
    handleGet ("/") = some ⟨200, "base route. Hello World Fellas"⟩ ∧
    "base route. Hello World Fellas" ≠ "" := by
  exact ⟨rfl, by decide⟩

/-- C9: for every injected Warrior, WarriorController.fight() and
WarriorController.sneak() return the Warrior's string verbatim, and the
framework sends exactly that string as the 200 response body: the controller
applies no wrapping, key-naming, or transformation. -/
theorem controller_returns_warrior_string_verbatim :
    ∀ w : Warrior,
      WarriorController.fight ⟨w⟩ = w.fight ∧
      WarriorController.sneak ⟨w⟩ = w.sneak ∧
      sendString (WarriorController.fight ⟨w⟩) = ⟨200, w.fight⟩ ∧
      sendString (WarriorController.sneak ⟨w⟩) = ⟨200, w.sneak⟩ :=
  fun _ => ⟨rfl, rfl, rfl, rfl⟩

/-- C9 witness: verbatim passthrough instantiated at the wired Warrior. -/
theorem controller_returns_warrior_string_verbatim_witness :
    WarriorController.fight ⟨boundWarrior⟩ = boundWarrior.fight ∧
    WarriorController.sneak ⟨boundWarrior⟩ = boundWarrior.sneak ∧
    sendString (WarriorController.fight ⟨boundWarrior⟩) =
      ⟨200, boundWarrior.fight⟩ ∧
    sendString (WarriorController.sneak ⟨boundWarrior⟩) =
      ⟨200, boundWarrior.sneak⟩ :=
  controller_returns_warrior_string_verbatim boundWarrior

/-- C10: starting from process start, registerDependencies runs at most once
over any number of resolveDependencies calls, and after the first call the
static state is permanently the registered container with its bindings
unchanged, so no binding is ever added, removed, or rebound afterwards. -/
theorem registerDependencies_at_most_once :
    ∀ n : Nat,
      (iterateResolve n DIContainer.initialState).registerCalls ≤ 1 ∧
      iterateResolve (n + 1) DIContainer.initialState =
        ⟨some DIContainer.registeredContainer, 1⟩ := by
  intro n
  refine ⟨?_, iterateResolve_init_succ n⟩
  cases n with
  | zero => exact Nat.zero_le 1
  | succ m =>
      rw [iterateResolve_init_succ m]

/-- C10 witness: the at-most-once property instantiated at three calls. -/
theorem registerDependencies_at_most_once_witness :
    (iterateResolve 3 DIContainer.initialState).registerCalls ≤ 1 ∧
    iterateResolve (3 + 1) DIContainer.initialState =
      ⟨some DIContainer.registeredContainer, 1⟩ :=
  registerDependencies_at_most_once 3
